import Mathlib

/-!
Shallow embedding of `mediadrop/controllers/sitemaps.py` (SitemapsController).

The controller is a thin layer over external collaborators (ORM query
builder, settings store, URL builder, templating).  We embed:

* media records (`MediaItem`) with the attributes the controller's query
  chains inspect: published status, viewability, publish timestamp and
  category membership;
* SQLAlchemy-style queries (`MQuery`): a row list plus pending
  `OFFSET`/`LIMIT` clauses.  As in SQL, `OFFSET` is applied before
  `LIMIT` when the query runs, regardless of the order in which the
  clauses were attached;
* the five controller actions as pure functions from the settings
  values, the request parameters and the database contents to a result
  value (the dict handed to the template, a sitemap-index page count, a
  404 abort, or a forwarded file response).
-/

/-- A media record, restricted to the attributes the sitemaps controller
reads through its query chains. -/
structure MediaItem where
  id : Nat
  publishOn : Int
  publishable : Bool
  viewable : Bool
  categories : List Nat
deriving DecidableEq, Repr

/-- A SQLAlchemy-style query over media rows: the filtered/ordered row
list plus pending OFFSET and LIMIT clauses. -/
structure MQuery where
  rows : List MediaItem
  qoffset : Int
  qlimit : Option Nat
deriving DecidableEq, Repr

/-- `Media.query`: a fresh query over the whole table, no OFFSET/LIMIT. -/
def Media.query (db : List MediaItem) : MQuery := ⟨db, 0, none⟩

/-- `.published()`: keep rows whose published status holds. -/
def MQuery.published (q : MQuery) : MQuery :=
  ⟨q.rows.filter (·.publishable), q.qoffset, q.qlimit⟩

/-- `.in_category(c)`: keep rows belonging to category `c`. -/
def MQuery.in_category (q : MQuery) (c : Nat) : MQuery :=
  ⟨q.rows.filter (fun m => m.categories.contains c), q.qoffset, q.qlimit⟩

/-- `.offset(n)`: attach an OFFSET clause. -/
def MQuery.offset (q : MQuery) (n : Int) : MQuery :=
  ⟨q.rows, n, q.qlimit⟩

/-- `.limit(n)`: attach a LIMIT clause. -/
def MQuery.limit (q : MQuery) (n : Nat) : MQuery :=
  ⟨q.rows, q.qoffset, some n⟩

/-- `.count()`: number of rows matching the filters. -/
def MQuery.count (q : MQuery) : Nat := q.rows.length

/-- Executing the query: rows after applying OFFSET then LIMIT (SQL
semantics; a non-positive offset drops nothing). -/
def MQuery.run (q : MQuery) : List MediaItem :=
  match q.qlimit with
  | none => q.rows.drop q.qoffset.toNat
  | some n => (q.rows.drop q.qoffset.toNat).take n

/-- `viewable_media(query)` (mediadrop.lib.helpers): restrict a query to
media viewable by the current user. -/
def viewable_media (q : MQuery) : MQuery :=
  ⟨q.rows.filter (·.viewable), q.qoffset, q.qlimit⟩

/-- Insert a media item into a list that is sorted by publish timestamp
descending, keeping it sorted. -/
def insertByPublishOn (m : MediaItem) : List MediaItem → List MediaItem
  | [] => [m]
  | x :: xs =>
    if x.publishOn ≤ m.publishOn then m :: x :: xs
    else x :: insertByPublishOn m xs

/-- `.order_by(Media.publish_on.desc())`: sort rows by publish timestamp
descending (insertion sort). -/
def sortByPublishOnDesc : List MediaItem → List MediaItem
  | [] => []
  | x :: xs => insertByPublishOn x (sortByPublishOnDesc xs)

/-- `.order_by(Media.publish_on.desc())` on a query. -/
def MQuery.order_by_publish_on_desc (q : MQuery) : MQuery :=
  ⟨sortByPublishOnDesc q.rows, q.qoffset, q.qlimit⟩

/-- A `url_for(...)` call as made by the controller: routing arguments
for the external URL builder. -/
structure NavLink where
  controller : String
  showParam : Option String
  qualified : Bool
deriving DecidableEq, Repr

/-- The four navigation links built when `page == 0` in `google`. -/
def sitemapLinks : List NavLink :=
  [ ⟨"/", none, true⟩,
    ⟨"/media", some "popular", true⟩,
    ⟨"/media", some "latest", true⟩,
    ⟨"/categories", none, true⟩ ]

/-- Result of the `google` action: a 404 abort, a `<sitemapindex>` page
count, or the `<urlset>` template dict (media slice, page, links). -/
inductive GoogleResult
  | notFound
  | index (pages : Nat)
  | listing (media : List MediaItem) (page : Int) (links : List NavLink)
deriving DecidableEq, Repr

/-- `SITEMAP_MEDIA_LIMIT` class constant. -/
def SITEMAP_MEDIA_LIMIT : Nat := 1000

/-- The tail of `google` once `page` holds an integer (defaulted to 0 or
explicitly supplied): slice the query with OFFSET `page * 1000` and
LIMIT 1000, 404 on an empty slice, and attach the navigation links for
pages below 1. -/
def googleSlice (media0 : MQuery) (page : Int) : GoogleResult :=
  let media := (media0.offset (page * (SITEMAP_MEDIA_LIMIT : Int))).limit SITEMAP_MEDIA_LIMIT
  let rows := media.run
  if rows.length = 0 then .notFound
  else
    let links := if page ≥ 1 then ([] : List NavLink) else sitemapLinks
    .listing rows page links

/-- `SitemapsController.google`.  The `page` request parameter is
`none` when absent; `some none` when supplied but not parseable as an
integer (`int(page)` raises); `some (some p)` when it parses to `p`. -/
def google (sitemaps_display : String) (pageParam : Option (Option Int))
    (db : List MediaItem) : GoogleResult :=
  if sitemaps_display ≠ "True" then .notFound
  else if pageParam = some none then .notFound
  else
    let media := viewable_media (Media.query db).published
    match pageParam with
    | some (some p) => googleSlice media p
    | _ =>
      let media_count := media.count
      if media_count > SITEMAP_MEDIA_LIMIT then
        -- math.ceil(media_count / float(SITEMAP_MEDIA_LIMIT)), exact division
        .index (Nat.ceil ((media_count : ℚ) / (SITEMAP_MEDIA_LIMIT : ℚ)))
      else
        googleSlice media 0

/-- Result of the RSS-style actions (`mrss`, `latest`, `featured`): a
404 abort or the template dict (media, title). -/
inductive FeedResult
  | notFound
  | ok (media : List MediaItem) (title : String)
deriving DecidableEq, Repr

/-- `SitemapsController.mrss`. -/
def mrss (sitemaps_display : String) (db : List MediaItem) : FeedResult :=
  if sitemaps_display ≠ "True" then .notFound
  else .ok (viewable_media (Media.query db).published).run "MediaRSS Sitemap"

/-- `SitemapsController.latest`, after parameter validation: `limit` is
the validated limit (`none` = no limit), `skip` the validated offset. -/
def latest (rss_display : String) (limit : Option Nat) (skip : Int)
    (db : List MediaItem) : FeedResult :=
  if rss_display ≠ "True" then .notFound
  else
    let media_query := (Media.query db).published.order_by_publish_on_desc
    let media := viewable_media media_query
    let media := match limit with
      | some l => media.limit l
      | none => media
    let media := if skip > 0 then media.offset skip else media
    .ok media.run "Latest Media"

/-- `SitemapsController.featured`, after parameter validation;
`featuredCat` is the category returned by `get_featured_category()`. -/
def featured (rss_display : String) (limit : Option Nat) (skip : Int)
    (featuredCat : Nat) (db : List MediaItem) : FeedResult :=
  if rss_display ≠ "True" then .notFound
  else
    let media_query :=
      (((Media.query db).in_category featuredCat).published).order_by_publish_on_desc
    let media := viewable_media media_query
    let media := match limit with
      | some l => media.limit l
      | none => media
    let media := if skip > 0 then media.offset skip else media
    .ok media.run "Featured Media"

/-- A raw request parameter as the validators classify it: absent,
present but empty, present but not an integer, or an integer value. -/
inductive RawParam
  | missing
  | empty
  | invalid
  | val (n : Int)
deriving DecidableEq, Repr

/-- `validators.Int(if_empty=0, if_missing=0, if_invalid=0)` applied to
the `skip` parameter (the keyword arguments appear in the source). -/
def validateSkip : RawParam → Int
  | .missing => 0
  | .empty => 0
  | .invalid => 0
  | .val n => n

/-- Modelled from the spec: `LimitFeedItemsValidator`
(mediadrop.validation) is not under src/; per the spec it "bounds/clamps
to an application-defined maximum; invalid/missing → unset meaning no
limit".  `maxItems` is the application-defined maximum. -/
def validateLimit (maxItems : Nat) : RawParam → Option Nat
  | .val n => some (min n.toNat maxItems)
  | _ => none

/-- `latest` including its `@validate` decorator: raw parameters pass
through the validators before the action body runs. -/
def latestRaw (rss_display : String) (maxItems : Nat)
    (rawLimit rawSkip : RawParam) (db : List MediaItem) : FeedResult :=
  latest rss_display (validateLimit maxItems rawLimit) (validateSkip rawSkip) db

/-- `featured` including its `@validate` decorator. -/
def featuredRaw (rss_display : String) (maxItems : Nat)
    (rawLimit rawSkip : RawParam) (featuredCat : Nat)
    (db : List MediaItem) : FeedResult :=
  featured rss_display (validateLimit maxItems rawLimit) (validateSkip rawSkip)
    featuredCat db

/-- A `paste.fileapp.FileApp` handle, identified by the file path it
serves. -/
structure FileApp where
  path : String
deriving DecidableEq, Repr

/-- Result of `crossdomain_xml`: a 404, or the response forwarded to a
`FileApp`. -/
inductive CrossdomainResult
  | notFound
  | forwardTo (app : FileApp)
deriving DecidableEq, Repr

/-- `SitemapsController.crossdomain_xml`.  `setting` is the string value
of `appearance_enable_cooliris`; `here` is `config['here']`; `app` is
the module-global `crossdomain_app` before the call.  Returns the
response and the global's value after the call.  The gate is Python
truthiness of the setting string (`if not request.settings[...]`): only
the empty string is falsy. -/
def crossdomain_xml (setting : String) (here : String)
    (app : Option FileApp) : CrossdomainResult × Option FileApp :=
  if setting = "" then
    (.notFound, none)
  else
    let app2 := match app with
      | none => FileApp.mk (here ++ "/" ++ "mediadrop/public/crossdomain.xml")
      | some a => a
    (.forwardTo app2, some app2)

/-!  Spec-side abbreviations used to state the claims.  -/

/-- The viewable-and-published media records, in database order. -/
def viewablePublished (db : List MediaItem) : List MediaItem :=
  (db.filter (·.publishable)).filter (·.viewable)

/-- The item slice of sitemap page `p`: offset `p * 1000`, limit 1000
(a non-positive offset drops nothing, as in `MQuery.run`). -/
def gSlice (p : Int) (l : List MediaItem) : List MediaItem :=
  (l.drop (p * (SITEMAP_MEDIA_LIMIT : Int)).toNat).take SITEMAP_MEDIA_LIMIT

/-- The page number `google` slices with: the parsed value when one was
supplied, 0 otherwise. -/
def pageOrZero : Option (Option Int) → Int
  | some (some p) => p
  | _ => 0

/-- Cap a list at an optional limit (`none` = no cap). -/
def applyLimit : Option Nat → List MediaItem → List MediaItem
  | none, l => l
  | some n, l => l.take n

/-- The full (unpaginated) item list of `latest`: viewable published
media ordered by publish timestamp descending. -/
def latestList (db : List MediaItem) : List MediaItem :=
  (sortByPublishOnDesc (db.filter (·.publishable))).filter (·.viewable)

/-- Publish-timestamp-descending order: `a` may precede `b` iff `b`'s
timestamp is at most `a`'s. -/
def pubDesc (a b : MediaItem) : Prop := b.publishOn ≤ a.publishOn

/-- Sample records used to instantiate the theorems on concrete inputs. -/
def sampleMedia : MediaItem := ⟨1, 10, true, true, [0]⟩

/-- A second sample record with a later publish timestamp. -/
def sampleMedia2 : MediaItem := ⟨2, 20, true, true, [0]⟩

/-- A database of 1001 identical viewable published records. -/
def bigDb : List MediaItem := List.replicate 1001 sampleMedia

/-!  Helper lemmas.  -/

theorem insertByPublishOn_perm (m : MediaItem) (l : List MediaItem) :
    List.Perm (insertByPublishOn m l) (m :: l) := by
  induction l with
  | nil => exact List.Perm.refl _
  | cons x xs ih =>
    unfold insertByPublishOn
    split
    · exact List.Perm.refl _
    · exact (List.Perm.cons x ih).trans (List.Perm.swap m x xs)

theorem sortByPublishOnDesc_perm (l : List MediaItem) :
    List.Perm (sortByPublishOnDesc l) l := by
  induction l with
  | nil => exact List.Perm.refl _
  | cons x xs ih =>
    exact (insertByPublishOn_perm x (sortByPublishOnDesc xs)).trans (List.Perm.cons x ih)

theorem sorted_insertByPublishOn (m : MediaItem) (l : List MediaItem)
    (h : List.Sorted pubDesc l) :
    List.Sorted pubDesc (insertByPublishOn m l) := by
  induction l with
  | nil => exact List.sorted_singleton m
  | cons x xs ih =>
    rw [List.sorted_cons] at h
    unfold insertByPublishOn
    split
    · rename_i hx
      rw [List.sorted_cons]
      refine ⟨?_, List.sorted_cons.mpr h⟩
      intro b hb
      rcases List.mem_cons.mp hb with rfl | hb
      · exact hx
      · exact le_trans (h.1 b hb) hx
    · rename_i hx
      rw [List.sorted_cons]
      refine ⟨?_, ih h.2⟩
      intro b hb
      have hb2 := (insertByPublishOn_perm m xs).mem_iff.mp hb
      rcases List.mem_cons.mp hb2 with rfl | hb3
      · exact le_of_not_le hx
      · exact h.1 b hb3

theorem sorted_sortByPublishOnDesc (l : List MediaItem) :
    List.Sorted pubDesc (sortByPublishOnDesc l) := by
  induction l with
  | nil => exact List.sorted_nil
  | cons x xs ih => exact sorted_insertByPublishOn x _ ih

theorem googleSlice_notFound_iff (m : MQuery) (p : Int) :
    googleSlice m p = .notFound ↔ gSlice p m.rows = [] := by
  show (if (gSlice p m.rows).length = 0 then GoogleResult.notFound
        else .listing (gSlice p m.rows) p
          (if p ≥ 1 then ([] : List NavLink) else sitemapLinks)) = .notFound ↔
      gSlice p m.rows = []
  split
  · rename_i hlen
    exact iff_of_true rfl (List.length_eq_zero.mp hlen)
  · rename_i hlen
    exact iff_of_false (by simp) (fun hnil => hlen (by rw [hnil]; rfl))

theorem googleSlice_listing (m : MQuery) (p : Int)
    (h : gSlice p m.rows ≠ []) :
    googleSlice m p =
      .listing (gSlice p m.rows) p (if p ≥ 1 then [] else sitemapLinks) := by
  have hlen : ¬((gSlice p m.rows).length = 0) :=
    fun hl => h (List.length_eq_zero.mp hl)
  show (if (gSlice p m.rows).length = 0 then GoogleResult.notFound
        else .listing (gSlice p m.rows) p
          (if p ≥ 1 then ([] : List NavLink) else sitemapLinks)) =
      .listing (gSlice p m.rows) p (if p ≥ 1 then [] else sitemapLinks)
  rw [if_neg hlen]

theorem natCeil_cast_div (a b : Nat) (hb : 0 < b) :
    Nat.ceil ((a : Rat) / (b : Rat)) = (a + b - 1) / b := by
  rcases Nat.eq_zero_or_pos a with rfl | ha
  · have hb1 : b - 1 < b := by omega
    simp [Nat.div_eq_of_lt hb1]
  · have hbQ : (0 : Rat) < (b : Rat) := by exact_mod_cast hb
    have hmod := Nat.div_add_mod (a + b - 1) b
    have hr : (a + b - 1) % b < b := Nat.mod_lt _ hb
    have hn1 : 1 ≤ (a + b - 1) / b := by
      rw [Nat.le_div_iff_mul_le hb]
      omega
    have hA : a ≤ b * ((a + b - 1) / b) := by omega
    have hB : b * ((a + b - 1) / b) < a + b := by omega
    rw [Nat.ceil_eq_iff (by omega)]
    constructor
    · rw [lt_div_iff₀ hbQ]
      have hcast : (((a + b - 1) / b - 1 : Nat) : Rat)
          = (((a + b - 1) / b : Nat) : Rat) - 1 := by
        rw [Nat.cast_sub hn1]
        simp
      rw [hcast]
      have hBQ : (b : Rat) * (((a + b - 1) / b : Nat) : Rat)
          < (a : Rat) + (b : Rat) := by
        exact_mod_cast hB
      nlinarith
    · rw [div_le_iff₀ hbQ]
      have hAQ : (a : Rat) ≤ (b : Rat) * (((a + b - 1) / b : Nat) : Rat) := by
        exact_mod_cast hA
      nlinarith

theorem googleSlice_ne_index (m : MQuery) (p : Int) (n : Nat) :
    googleSlice m p ≠ .index n := by
  unfold googleSlice
  dsimp only
  split <;> simp

theorem google_explicit_reduce (s : String) (q : Int) (db : List MediaItem) :
    google s (some (some q)) db =
      if s ≠ "True" then .notFound
      else googleSlice (viewable_media (Media.query db).published) q := by
  unfold google
  by_cases hs : s ≠ "True"
  · rw [if_pos hs, if_pos hs]
  · rw [if_neg hs, if_neg hs, if_neg (by simp)]

/-- C1: with sitemaps enabled and no page parameter, when the count of
viewable-and-published media strictly exceeds 1000 the result of
`google` is the sitemap-index shape carrying only the page count
`ceil(count / 1000)` (equivalently `(count + 999) / 1000`), and never an
item listing. -/
theorem google_no_page_over_limit (db : List MediaItem)
    (h : SITEMAP_MEDIA_LIMIT < (viewablePublished db).length) :
    google "True" none db =
      .index (Nat.ceil (((viewablePublished db).length : Rat)
        / (SITEMAP_MEDIA_LIMIT : Rat))) ∧
    Nat.ceil (((viewablePublished db).length : Rat) / (SITEMAP_MEDIA_LIMIT : Rat))
      = ((viewablePublished db).length + 999) / 1000 ∧
    ∀ ms p ls, google "True" none db ≠ .listing ms p ls := by
  have h1 : google "True" none db =
      .index (Nat.ceil (((viewablePublished db).length : Rat)
        / (SITEMAP_MEDIA_LIMIT : Rat))) := by
    show (if (viewablePublished db).length > SITEMAP_MEDIA_LIMIT
        then GoogleResult.index (Nat.ceil (((viewablePublished db).length : Rat)
          / (SITEMAP_MEDIA_LIMIT : Rat)))
        else googleSlice (viewable_media (Media.query db).published) 0) = _
    rw [if_pos h]
  refine ⟨h1, ?_, ?_⟩
  · rw [natCeil_cast_div _ _ (by norm_num [SITEMAP_MEDIA_LIMIT])]
    show ((viewablePublished db).length + 1000 - 1) / 1000 = _
    omega
  · intro ms p ls
    rw [h1]
    simp

/-- Witness for C1: a site of 1001 viewable published records returns
the sitemap index. -/
theorem google_no_page_over_limit_witness :
    SITEMAP_MEDIA_LIMIT < (viewablePublished bigDb).length ∧
    google "True" none bigDb =
      .index (Nat.ceil (((viewablePublished bigDb).length : Rat)
        / (SITEMAP_MEDIA_LIMIT : Rat))) := by
  have e : (viewablePublished bigDb).length = 1001 := by
    rw [viewablePublished, bigDb, List.filter_replicate, if_pos (by decide),
      List.filter_replicate, if_pos (by decide), List.length_replicate]
  have h : SITEMAP_MEDIA_LIMIT < (viewablePublished bigDb).length := by
    rw [e]
    norm_num [SITEMAP_MEDIA_LIMIT]
  exact ⟨h, (google_no_page_over_limit bigDb h).1⟩

/-- C2 counterexample: on an empty site (count 0 ≤ 1000), `google` with
no page parameter aborts with 404 instead of returning the full (empty)
item listing with page 0 and 4 links that the claim asserts for every
count ≤ 1000 including 0. -/
theorem google_no_page_empty_counterexample :
    google "True" none [] = .notFound ∧
    google "True" none [] ≠ .listing [] 0 sitemapLinks := by
  constructor
  · rfl
  · decide

/-- C2 (amended): with sitemaps enabled and no page parameter, for every
count C of viewable-and-published media with 1 ≤ C ≤ 1000 the result is
the full item listing of all those media with page 0 and exactly 4
navigation links; the claim's C = 0 case instead aborts with 404
because the defaulted page-0 slice is empty. -/
theorem google_no_page_small_site (db : List MediaItem)
    (h0 : viewablePublished db ≠ [])
    (h1 : (viewablePublished db).length ≤ SITEMAP_MEDIA_LIMIT) :
    google "True" none db = .listing (viewablePublished db) 0 sitemapLinks ∧
    sitemapLinks.length = 4 := by
  refine ⟨?_, rfl⟩
  have hg : gSlice 0 (viewablePublished db) = viewablePublished db := by
    rw [gSlice]
    simp only [zero_mul, Int.toNat_zero, List.drop_zero]
    exact List.take_of_length_le h1
  show (if (viewablePublished db).length > SITEMAP_MEDIA_LIMIT
      then GoogleResult.index (Nat.ceil (((viewablePublished db).length : Rat)
        / (SITEMAP_MEDIA_LIMIT : Rat)))
      else googleSlice (viewable_media (Media.query db).published) 0) = _
  rw [if_neg (by omega)]
  have hrows : (viewable_media (Media.query db).published).rows
      = viewablePublished db := rfl
  rw [googleSlice_listing _ _ (by rw [hrows, hg]; exact h0)]
  rw [hrows, hg, if_neg (by norm_num)]

/-- Witness for C2 (amended): a site with one viewable published record
returns the full listing with page 0 and the 4 links. -/
theorem google_no_page_small_site_witness :
    viewablePublished [sampleMedia] ≠ [] ∧
    (viewablePublished [sampleMedia]).length ≤ SITEMAP_MEDIA_LIMIT ∧
    google "True" none [sampleMedia]
      = .listing (viewablePublished [sampleMedia]) 0 sitemapLinks := by
  refine ⟨by decide, by decide, ?_⟩
  exact (google_no_page_small_site [sampleMedia] (by decide) (by decide)).1

/-- C3: for every explicitly supplied (non-negative, per the data
model) integer page `p`, `google` returns the item slice with offset
`p * 1000` and limit 1000; the four navigation links appear exactly
when `p = 0` and the link list is empty for every `p ≥ 1`; and with an
explicit page the sitemap-index shape is never returned, for any
settings value, page and repository state. -/
theorem google_explicit_page (p : Nat) (db : List MediaItem)
    (h : gSlice (p : Int) (viewablePublished db) ≠ []) :
    google "True" (some (some (p : Int))) db =
      .listing (gSlice (p : Int) (viewablePublished db)) (p : Int)
        (if p = 0 then sitemapLinks else []) ∧
    ∀ (s : String) (q : Int) (l : List MediaItem) (n : Nat),
      google s (some (some q)) l ≠ .index n := by
  constructor
  · rw [google_explicit_reduce, if_neg (by simp)]
    have hrows : (viewable_media (Media.query db).published).rows
        = viewablePublished db := rfl
    rw [googleSlice_listing _ _ (by rw [hrows]; exact h), hrows]
    rcases Nat.eq_zero_or_pos p with rfl | hp
    · norm_num
    · rw [if_pos (by omega : ((p : Int) ≥ 1)), if_neg (by omega)]
  · intro s q l n
    rw [google_explicit_reduce]
    split
    · simp
    · exact googleSlice_ne_index _ _ _

/-- Witness for C3: explicit page 0 on a two-record site returns both
records with the 4 links. -/
theorem google_explicit_page_witness :
    gSlice ((0 : Nat) : Int) (viewablePublished [sampleMedia, sampleMedia2]) ≠ [] ∧
    google "True" (some (some ((0 : Nat) : Int))) [sampleMedia, sampleMedia2] =
      .listing (gSlice ((0 : Nat) : Int) (viewablePublished [sampleMedia, sampleMedia2]))
        ((0 : Nat) : Int) (if (0 : Nat) = 0 then sitemapLinks else []) := by
  refine ⟨by decide, ?_⟩
  exact (google_explicit_page 0 [sampleMedia, sampleMedia2] (by decide)).1

/-- C4: `google` aborts with 404 exactly when sitemaps are disabled, or
the supplied page fails to parse as an integer, or the item slice at
the (defaulted-to-0) page is empty; in every other case it succeeds. -/
theorem google_notFound_iff (s : String) (pp : Option (Option Int))
    (db : List MediaItem) :
    google s pp db = .notFound ↔
      s ≠ "True" ∨ pp = some none ∨
        gSlice (pageOrZero pp) (viewablePublished db) = [] := by
  by_cases hs : s ≠ "True"
  · refine iff_of_true ?_ (Or.inl hs)
    unfold google
    rw [if_pos hs]
  · rw [not_ne_iff] at hs
    subst hs
    simp only [ne_eq, not_true_eq_false, false_or]
    rcases pp with _ | op
    · simp only [reduceCtorEq, false_or]
      show (if (viewablePublished db).length > SITEMAP_MEDIA_LIMIT
          then GoogleResult.index (Nat.ceil (((viewablePublished db).length : Rat)
            / (SITEMAP_MEDIA_LIMIT : Rat)))
          else googleSlice (viewable_media (Media.query db).published) 0)
          = .notFound ↔ gSlice (pageOrZero none) (viewablePublished db) = []
    
      split
      · rename_i hc
        refine iff_of_false (by simp) ?_
        intro hnil
        rw [show pageOrZero none = 0 from rfl, gSlice] at hnil
        simp only [zero_mul, Int.toNat_zero, List.drop_zero,
          List.take_eq_nil_iff] at hnil
        rcases hnil with h1000 | hempty
        · rw [SITEMAP_MEDIA_LIMIT] at h1000
          omega
        · rw [hempty] at hc
          simp [SITEMAP_MEDIA_LIMIT] at hc
      · rw [googleSlice_notFound_iff]
        exact Iff.rfl
    · rcases op with _ | q
      · refine iff_of_true ?_ (Or.inl rfl)
        unfold google
        rw [if_neg (by simp), if_pos rfl]
      · simp only [reduceCtorEq, false_or, Option.some.injEq]
        rw [google_explicit_reduce, if_neg (by simp), googleSlice_notFound_iff]
        exact Iff.rfl

/-- C5 counterexample: the code gates `crossdomain_xml` on Python
truthiness of the setting string, not on the enabled-string sentinel
used by the other flags; storing the disabled sentinel "False" (a
non-empty, hence truthy, string) therefore serves the file — reusing a
previously cached stale handle — instead of failing with NotFound and
clearing the handle as the claim asserts for every "off" value. -/
theorem crossdomain_disabled_sentinel_counterexample :
    crossdomain_xml "False" "/srv" (some ⟨"/stale"⟩)
      = (.forwardTo ⟨"/stale"⟩, some ⟨"/stale"⟩) ∧
    (crossdomain_xml "False" "/srv" (some ⟨"/stale"⟩)).1
      ≠ CrossdomainResult.notFound := by
  constructor
  · rfl
  · decide

/-- C5 (amended): `crossdomain_xml` is gated on string truthiness:
when the `appearance_enable_cooliris` value is the empty string the
call fails with NotFound and the process-wide cached file-serving
handle is cleared; when the value is any non-empty string (including
the literal "False") the response is delegated to the lazily
constructed, process-wide handle. -/
theorem crossdomain_xml_truthiness (setting here : String)
    (app : Option FileApp) :
    (setting = "" →
      crossdomain_xml setting here app = (.notFound, none)) ∧
    (setting ≠ "" →
      crossdomain_xml setting here app =
        (.forwardTo (app.getD ⟨here ++ "/" ++ "mediadrop/public/crossdomain.xml"⟩),
          some (app.getD ⟨here ++ "/" ++ "mediadrop/public/crossdomain.xml"⟩))) := by
  constructor
  · intro h
    unfold crossdomain_xml
    rw [if_pos h]
  · intro h
    unfold crossdomain_xml
    rw [if_neg h]
    cases app <;> rfl

/-- Witness for C5 (amended): the empty string 404s and clears the
handle; a truthy value lazily constructs and serves the handle. -/
theorem crossdomain_xml_truthiness_witness :
    crossdomain_xml "" "/srv" (some ⟨"/stale"⟩) = (.notFound, none) ∧
    crossdomain_xml "True" "/srv" none =
      (.forwardTo ⟨"/srv/mediadrop/public/crossdomain.xml"⟩,
        some ⟨"/srv/mediadrop/public/crossdomain.xml"⟩) := by
  constructor
  · exact (crossdomain_xml_truthiness "" "/srv" (some ⟨"/stale"⟩)).1 rfl
  · have h2 := (crossdomain_xml_truthiness "True" "/srv" none).2 (by decide)
    rw [h2]
    rfl

/-- C6: whenever `sitemaps_display` differs from the enabled value
"True", both `google` and `mrss` fail with NotFound, for every page
parameter and every repository state. -/
theorem sitemaps_disabled_notFound (s : String) (pp : Option (Option Int))
    (db : List MediaItem) (h : s ≠ "True") :
    google s pp db = .notFound ∧ mrss s db = .notFound := by
  constructor
  · unfold google
    rw [if_pos h]
  · unfold mrss
    rw [if_pos h]

/-- Witness for C6: the disabled value "False" 404s both actions. -/
theorem sitemaps_disabled_notFound_witness :
    "False" ≠ "True" ∧
    google "False" (some (some 0)) [sampleMedia] = .notFound ∧
    mrss "False" [sampleMedia] = .notFound := by
  refine ⟨by decide, ?_⟩
  exact sitemaps_disabled_notFound "False" (some (some 0)) [sampleMedia] (by decide)

/-- C7: with `rss_display` enabled, `latest` returns the viewable
published media ordered by publish timestamp descending, offset by the
validated skip exactly when it is strictly positive, and capped by the
validated limit when set; `latestList` is sorted descending on the
publish timestamp and is a permutation of the viewable published
media. -/
theorem latest_enabled_result (limit : Option Nat) (skip : Int)
    (db : List MediaItem) :
    latest "True" limit skip db =
      .ok (applyLimit limit ((latestList db).drop skip.toNat)) "Latest Media" ∧
    List.Sorted pubDesc (latestList db) ∧
    List.Perm (latestList db) (viewablePublished db) := by
  refine ⟨?_, ?_, ?_⟩
  · by_cases hs : skip > 0
    · cases limit <;>
        simp [latest, applyLimit, MQuery.run, MQuery.limit, MQuery.offset,
          viewable_media, MQuery.order_by_publish_on_desc, MQuery.published,
          Media.query, latestList, hs]
    · cases limit <;>
        simp [latest, applyLimit, MQuery.run, MQuery.limit, MQuery.offset,
          viewable_media, MQuery.order_by_publish_on_desc, MQuery.published,
          Media.query, latestList, hs,
          Int.toNat_of_nonpos (le_of_not_lt hs)]
  · exact List.Sorted.filter _ (sorted_sortByPublishOnDesc _)
  · exact List.Perm.filter _ (sortByPublishOnDesc_perm _)

/-- C8: the validators never fail: invalid or missing `limit` becomes
unset (no limit) and invalid, empty or missing `skip` becomes 0; in
particular `latest`/`featured` with an unparseable limit behave exactly
as if no limit had been given. -/
theorem validators_normalize (maxItems : Nat) (rss : String)
    (rawSkip : RawParam) (cat : Nat) (db : List MediaItem) :
    validateLimit maxItems .invalid = none ∧
    validateLimit maxItems .missing = none ∧
    validateSkip .invalid = 0 ∧
    validateSkip .empty = 0 ∧
    validateSkip .missing = 0 ∧
    latestRaw rss maxItems .invalid rawSkip db =
      latest rss none (validateSkip rawSkip) db ∧
    latestRaw rss maxItems .invalid rawSkip db =
      latestRaw rss maxItems .missing rawSkip db ∧
    featuredRaw rss maxItems .invalid rawSkip cat db =
      featuredRaw rss maxItems .missing rawSkip cat db :=
  ⟨rfl, rfl, rfl, rfl, rfl, rfl, rfl, rfl⟩

/-- C9: `featured` returns exactly what `latest` returns on the media
set restricted to the configured featured category, with the title
replaced by "Featured Media", for every settings value, limit, skip,
category and repository state. -/
theorem featured_is_latest_on_category (rss : String) (limit : Option Nat)
    (skip : Int) (cat : Nat) (db : List MediaItem) :
    featured rss limit skip cat db =
      match latest rss limit skip
          (db.filter (fun m => m.categories.contains cat)) with
      | .notFound => .notFound
      | .ok ms _ => .ok ms "Featured Media" := by
  by_cases hs : rss ≠ "True"
  · unfold featured latest
    rw [if_pos hs, if_pos hs]
  · unfold featured latest
    rw [if_neg hs, if_neg hs]
    rfl

/-- C10: every non-positive validated skip (negative values included)
produces exactly the same result as skip = 0 in both `latest` and
`featured`: the offset is attached only when skip is strictly
positive. -/
theorem nonpositive_skip_like_zero (rss : String) (limit : Option Nat)
    (skip : Int) (cat : Nat) (db : List MediaItem) (h : skip ≤ 0) :
    latest rss limit skip db = latest rss limit 0 db ∧
    featured rss limit skip cat db = featured rss limit 0 cat db := by
  have hns : ¬ skip > 0 := not_lt.mpr h
  have h0 : ¬ (0 : Int) > 0 := by norm_num
  constructor
  · unfold latest
    dsimp only
    rw [if_neg hns, if_neg h0]
  · unfold featured
    dsimp only
    rw [if_neg hns, if_neg h0]

/-- Witness for C10: skip = -3 behaves as skip = 0. -/
theorem nonpositive_skip_like_zero_witness :
    (-3 : Int) ≤ 0 ∧
    latest "True" none (-3) [sampleMedia] = latest "True" none 0 [sampleMedia] ∧
    featured "True" none (-3) 0 [sampleMedia]
      = featured "True" none 0 0 [sampleMedia] := by
  refine ⟨by decide, ?_⟩
  exact nonpositive_skip_like_zero "True" none (-3) 0 [sampleMedia] (by decide)
